import Mathlib

/-!
Verification of the solar dump/restore pipeline against its design spec.

The definitions below are a shallow embedding of the Python sources:

* `src/solar/base.py`       — `ApiEngine`: `api_request`, `_fetch_ids`,
                              `remove_collection`, …
* `src/solar/import_.py`    — `recursive_field_remove`, `Importer._post_documents`,
                              `Importer.import_data`, `Importer.import_configs`
* `src/solar/api/export.py` — `Exporter._export_to_path`
* `src/solar/__main__.py`   — the `reindex` command

Network I/O is modelled by passing the response (or outcome) of each HTTP call in
as an explicit oracle argument; Python exceptions are modelled with `Except`;
Python `None` results are `Option.none`.
-/

namespace Solar

/-- JSON values, as produced by `json.load` / `orjson.loads` in the sources.
Objects are association lists in insertion order (Python dicts preserve
insertion order, and that is the order `json.dumps` serializes). -/
inductive Json where
  | null
  | bool (b : Bool)
  | num (n : Int)
  | str (s : String)
  | arr (xs : List Json)
  | obj (fs : List (String × Json))

/-- The Python exceptions raised by the embedded code. -/
inductive SolarError where
  | authError                -- `ValueError("Auth error :(")` raised on a 401 status
  | valueError               -- any other `ValueError` raised by the sources
  | keyError                 -- Python `KeyError` (missing dict key)
  | typeError                -- Python `TypeError` (e.g. iterating a non-list)
  | decodeError              -- `orjson.loads` on a malformed body
  deriving DecidableEq, Repr

/-- The decoded text of an HTTP response: either it parses as JSON or it does
not (`orjson.loads` raises on it). -/
inductive RespBody where
  | json (j : Json)
  | invalid

/-- An HTTP response, as seen by `ApiEngine.api_request`. -/
structure SolrResponse where
  status : Nat
  body : RespBody

/-- A request issued to Solr (method, URL path, query parameters). -/
structure SolrRequest where
  method : String
  path : String
  params : List (String × String)

/-- `ApiEngine.api_request` (src/solar/base.py, lines 80–125): raises
`ValueError("Auth error :(")` on status 401; returns `None` on any other
non-200 status (after logging); otherwise returns the response text. -/
def api_request (resp : SolrResponse) : Except SolarError (Option RespBody) :=
  if resp.status = 401 then .error .authError
  else if resp.status ≠ 200 then .ok none
  else .ok (some resp.body)

/-- `orjson.loads` on a response text: the parsed JSON, or a raised decode
error for a malformed body. -/
def orjson_loads : RespBody → Except SolarError Json
  | .json j => .ok j
  | .invalid => .error .decodeError

/-- Python `data[k]` on a JSON value: a `KeyError` if the key is absent, a
`TypeError` if `data` is not an object. -/
def getKey (j : Json) (k : String) : Except SolarError Json :=
  match j with
  | .obj fs =>
    match fs.lookup k with
    | some v => .ok v
    | none => .error .keyError
  | _ => .error .typeError

mutual
/-- `recursive_field_remove` (src/solar/import_.py, lines 22–27): on a dict,
drop the entries whose key equals `field` and recurse into the kept values;
on a list, recurse into every element; return anything else unchanged. -/
def recursive_field_remove : Json → String → Json
  | .obj fs, field => .obj (recursive_field_remove_obj fs field)
  | .arr xs, field => .arr (recursive_field_remove_arr xs field)
  | v, _ => v

/-- The list comprehension `[recursive_field_remove(v, field) for v in doc]`. -/
def recursive_field_remove_arr : List Json → String → List Json
  | [], _ => []
  | x :: xs, field => recursive_field_remove x field :: recursive_field_remove_arr xs field

/-- The dict comprehension
`{k: recursive_field_remove(v, field) for k, v in doc.items() if k != field}`. -/
def recursive_field_remove_obj : List (String × Json) → String → List (String × Json)
  | [], _ => []
  | (k, v) :: fs, field =>
    if k = field then recursive_field_remove_obj fs field
    else (k, recursive_field_remove v field) :: recursive_field_remove_obj fs field
end

mutual
/-- Whether a JSON value contains a field named `f` at any nesting depth
(inside nested objects and arrays). Used to state the sanitization claim. -/
def json_has_field : Json → String → Bool
  | .obj fs, f => obj_has_field fs f
  | .arr xs, f => arr_has_field xs f
  | _, _ => false

def arr_has_field : List Json → String → Bool
  | [], _ => false
  | x :: xs, f => json_has_field x f || arr_has_field xs f

def obj_has_field : List (String × Json) → String → Bool
  | [], _ => false
  | (k, v) :: fs, f => k == f || json_has_field v f || obj_has_field fs f
end

/-- A document as manipulated by the import path: a Python dict in insertion
order, with field values of type `V`.  The import logic
(`Importer.import_data`) is generic in the values it compares — it only needs
equality on them, exactly as the Python `set` operations do. -/
abbrev DocF (V : Type) : Type := List (String × V)

/-- A document whose field values are arbitrary JSON, for the code that
recurses into nested values (`Importer._post_documents`). -/
abbrev Doc : Type := DocF Json

/-- `doc.pop(field, None)`: remove the entry with the given key from a dict. -/
def pop_field {V : Type} (d : DocF V) (field : String) : DocF V :=
  d.filter (fun kv => kv.1 ≠ field)

/-- The per-document sanitization loop of `Importer._post_documents`
(src/solar/import_.py, lines 52–55):

```python
for doc in docs:
    doc.pop("_version_", None)
    doc = recursive_field_remove(doc, "_root_")
```

`doc.pop` mutates the dict held in the list, so `_version_` is removed from
the posted payload; the result of `recursive_field_remove` is bound to the
loop variable `doc` and never stored back into `docs`, so the recursive
`_root_` strip has no effect on the payload.  The function returns the list
that is then serialized by `json.dumps(docs, ...)` and posted. -/
def post_payload (docs : List Doc) : List Doc :=
  docs.map (fun doc =>
    let doc1 := pop_field doc "_version_"
    let _discarded := recursive_field_remove (.obj doc1) "_root_"
    doc1)

/-- The request issued by `ApiEngine._fetch_ids` (src/solar/base.py,
lines 65–70): a GET against the export handler of the collection with
`q=query`, `fl=id_col` and `sort="{id_col} desc"`. -/
def fetch_ids_request (collection id_col query : String) : SolrRequest :=
  { method := "GET"
    path := "/solr/" ++ collection ++ "/export"
    params := [("q", query), ("fl", id_col), ("sort", id_col ++ " desc")] }

/-- `ApiEngine._fetch_ids` (src/solar/base.py, lines 55–78), given the
response to `fetch_ids_request`: if `api_request` returned `None` (non-2xx)
the function returns `None`; otherwise it parses the body, reads
`data["response"]["docs"]`, and collects `i["id"]` for each doc — the literal
key `"id"`, not `self.id_col`. -/
def fetch_ids (resp : SolrResponse) : Except SolarError (Option (List Json)) := do
  match ← api_request resp with
  | none => return none
  | some content =>
    let data ← orjson_loads content
    let body ← getKey data "response"
    match ← getKey body "docs" with
    | .arr ds =>
      let ids ← ds.mapM (fun i => getKey i "id")
      return some ids
    | _ => .error .typeError

/-- The body Solr sends back to `fetch_ids_request` when the configured id
field is `uid` and one document matches: since the request asked for
`fl=uid`, each returned doc carries only the `uid` field. -/
def uidScanBody : Json :=
  .obj [("response", .obj [("numFound", .num 1),
                           ("docs", .arr [.obj [("uid", .str "5")]])])]

/-- The concrete document used to exercise the sanitizer: it carries a
top-level `_version_`, a top-level `_root_`, and a nested `_root_` inside a
child document. -/
def sampleDoc : Doc :=
  [("id", Json.str "1"), ("_version_", Json.num 1712345), ("_root_", Json.str "1"),
   ("_childDocuments_", Json.arr [Json.obj [("id", Json.str "1.1"), ("_root_", Json.str "1")]])]

/-- Python `str.lower()`, used on the confirmation answer of the operator. -/
def str_lower (s : String) : String := String.mk (s.data.map Char.toLower)

variable {V : Type} [DecidableEq V]

/-- Python `doc[k]` on a document dict: the value, or a raised `KeyError`. -/
def getField (d : DocF V) (k : String) : Except SolarError V :=
  match d.lookup k with
  | some v => .ok v
  | none => .error .keyError

/-- The comprehension `[i[self.id_col] for i in docs]`
(src/solar/import_.py, line 92): the id of every snapshot document, raising
`KeyError` on a document that lacks the id field.  (`set(...)` around it only
changes membership semantics, which list membership models.) -/
def map_id_col (idc : String) : List (DocF V) → Except SolarError (List V)
  | [] => .ok []
  | d :: rest => do
    let i ← getField d idc
    let l ← map_id_col idc rest
    return i :: l

/-- The first-occurrence selection loop of `Importer.import_data`
(src/solar/import_.py, lines 106–112):

```python
seen = set()
upload_docs = []
for doc in docs:
    doc_id = doc[self.id_col]
    if doc_id not in seen and doc_id in upload_ids:
        upload_docs.append(doc)
        seen.add(doc_id)
```
-/
def select_upload_docs (idc : String) (upload_ids : List V) :
    List (DocF V) → List V → Except SolarError (List (DocF V))
  | [], _seen => .ok []
  | doc :: rest, seen => do
    let doc_id ← getField doc idc
    if doc_id ∉ seen ∧ doc_id ∈ upload_ids then
      let out ← select_upload_docs idc upload_ids rest (doc_id :: seen)
      return doc :: out
    else
      select_upload_docs idc upload_ids rest seen

/-- The document-selection phase of `Importer.import_data`
(src/solar/import_.py, lines 90–114): compute the snapshot id set; in
non-overwrite mode fetch the existing ids (`fetchResult` is the outcome of
`self._fetch_ids(query="*:*")`), raise `ValueError` when that returned
`None`, form `upload_ids = docs_ids - existing_ids` and run the
first-occurrence selection; in overwrite mode upload every snapshot
document. -/
def compute_upload_docs (idc : String) (docs : List (DocF V)) (overwrite : Bool)
    (fetchResult : Except SolarError (Option (List V))) :
    Except SolarError (List (DocF V)) := do
  let docs_ids ← map_id_col idc docs
  if ¬ overwrite then do
    match ← fetchResult with
    | none => .error .valueError
    | some existing_ids =>
      let upload_ids := docs_ids.filter (fun i => i ∉ existing_ids)
      select_upload_docs idc upload_ids docs []
  else
    return docs

/-- Structural worker for `chunked`; the fuel starts at the length of the list,
which bounds the number of chunks. -/
def chunkedAux {α : Type} (n : Nat) : Nat → List α → List (List α)
  | 0, _ => []
  | _, [] => []
  | fuel + 1, x :: xs => ((x :: xs).take n) :: chunkedAux n fuel ((x :: xs).drop n)

/-- `more_itertools.chunked(iterable, n)`: split a list into contiguous
batches of `n` (the last one possibly shorter).  With `n = 0` the Python
iterator yields no batches at all. -/
def chunked {α : Type} (l : List α) (n : Nat) : List (List α) :=
  if n = 0 then [] else chunkedAux n l.length l

/-- The payload `Importer._post_documents` serializes and posts for one
batch: `_version_` is popped from each document in place; the recursive
`_root_` strip is computed but its result is rebound to the loop variable
only (see `post_payload` for the nested-document statement of that slip), so
on the field lists it has no effect. -/
def post_documents_payload (docs : List (DocF V)) : List (DocF V) :=
  docs.map (fun doc => pop_field doc "_version_")

/-- The observable actions of one `Importer.import_data` call. -/
inductive ImportEffect (V : Type) where
  | promptConfirm
  | updateDocs (payload : List (DocF V))
  deriving DecidableEq, Repr

/-- The batch-upload loop of `Importer.import_data`
(src/solar/import_.py, lines 144–150):

```python
for batch_docs in chunked(upload_docs, batch_size):
    try:
        await self._post_documents(docs=batch_docs)
    except Exception:
        print("[red]Ошибка :)")
```

`respFn k` is the response of the server to update POST number `k`.  The POST is
issued with the sanitized payload, and any exception raised by
`_post_documents` — including the 401 `ValueError` from `api_request` — is
caught and logged, after which the loop advances to the next batch; the two
match arms are identical precisely because of the bare `except Exception`. -/
def upload_loop (respFn : Nat → SolrResponse) :
    List (List (DocF V)) → Nat → List (ImportEffect V) × Except SolarError Unit
  | [], _ => ([], .ok ())
  | batch :: rest, k =>
    let payload := post_documents_payload batch
    let attempt := api_request (respFn k)
    let (es, outcome) := upload_loop respFn rest (k + 1)
    match attempt with
    | .ok _ => (ImportEffect.updateDocs payload :: es, outcome)
    | .error _ => (ImportEffect.updateDocs payload :: es, outcome)

/-- `Importer.import_data` (src/solar/import_.py, lines 80–150), after the
snapshot file has been loaded (`docs` is `data["docs"]`): select the
documents to upload; return immediately when there are none (before the
confirmation prompt); otherwise print the parameters, prompt, and on an
affirmative `answer` run the batch loop — on any other answer return having
done nothing.  The returned pair is (observable actions, outcome). -/
def import_data_run (idc : String) (docs : List (DocF V)) (batch_size : Nat)
    (overwrite : Bool) (fetchResult : Except SolarError (Option (List V)))
    (answer : String) (respFn : Nat → SolrResponse) :
    List (ImportEffect V) × Except SolarError Unit :=
  match compute_upload_docs idc docs overwrite fetchResult with
  | .error e => ([], .error e)
  | .ok upload_docs =>
    if upload_docs.length = 0 then
      ([], .ok ())
    else
      if str_lower answer = "y" then
        let (es, outcome) := upload_loop respFn (chunked upload_docs batch_size) 0
        (ImportEffect.promptConfirm :: es, outcome)
      else
        ([ImportEffect.promptConfirm], .ok ())

/-- The observable actions of one `Importer.import_configs` call. -/
inductive ConfigEffect where
  | promptConfirm
  | deleteConfig (name : String)
  | uploadConfig (name : String)
  deriving DecidableEq, Repr

/-- `Importer.import_configs` (src/solar/import_.py, lines 160–223): print
the parameters and prompt; on a non-affirmative answer return at once.
Otherwise, when `overwrite` is set, first `_remove_config` (a DELETE that
raises `ValueError` when `api_request` returns `None`, and propagates the
401 error); then upload the zipped config directory, raising `ValueError`
when that request returns `None`. -/
def import_configs_run (name : String) (overwrite : Bool) (answer : String)
    (deleteResp uploadResp : SolrResponse) :
    List ConfigEffect × Except SolarError Unit :=
  if str_lower answer ≠ "y" then
    ([ConfigEffect.promptConfirm], .ok ())
  else
    let afterDelete : List ConfigEffect × Except SolarError Unit :=
      if overwrite then
        match api_request deleteResp with
        | .error e => ([.promptConfirm, .deleteConfig name], .error e)
        | .ok none => ([.promptConfirm, .deleteConfig name], .error .valueError)
        | .ok (some _) => ([.promptConfirm, .deleteConfig name], .ok ())
      else ([.promptConfirm], .ok ())
    match afterDelete with
    | (es, .error e) => (es, .error e)
    | (es, .ok ()) =>
      match api_request uploadResp with
      | .error e => (es ++ [.uploadConfig name], .error e)
      | .ok none => (es ++ [.uploadConfig name], .error .valueError)
      | .ok (some _) => (es ++ [.uploadConfig name], .ok ())

/-- The steps of the `reindex` command (src/solar/__main__.py, lines
210–265), in program order. -/
inductive ReindexStep where
  | clusterStatus
  | exportConfig
  | exportData
  | importConfig
  | removeCollection
  | createCollection
  | importData
  deriving DecidableEq, Repr

/-- `ApiEngine.remove_collection` (src/solar/base.py, lines 127–129): issue
the DELETE request and ignore its result — `api_request` returning `None`
on a non-2xx status is not checked, so only the raised 401 auth error
escapes this function. -/
def remove_collection (resp : SolrResponse) : Except SolarError Unit :=
  match api_request resp with
  | .error e => .error e
  | .ok _ => .ok ()

/-- The `reindex` command (src/solar/__main__.py, lines 210–265), with the
outcome of each network step supplied as an oracle: cluster status, config
export, data export, config import (each of which halts the command only by
raising, which the `Except` oracle models), then `remove_collection` applied
to the HTTP response of the removal request, then collection creation and
data import.  `create_collection` is called at line 258 but is not defined
in the sources under verification; modelled from the spec (§4.7 step 5: a
step whose failure halts the sequence) as an `Except` oracle, like the final
step of data import.  Returns the executed steps and the final outcome. -/
def reindex_run (statusO exportConfigO exportDataO importConfigO : Except SolarError Unit)
    (removeResp : SolrResponse) (createO importO : Except SolarError Unit) :
    List ReindexStep × Except SolarError Unit :=
  match statusO with
  | .error e => ([.clusterStatus], .error e)
  | .ok () =>
  match exportConfigO with
  | .error e => ([.clusterStatus, .exportConfig], .error e)
  | .ok () =>
  match exportDataO with
  | .error e => ([.clusterStatus, .exportConfig, .exportData], .error e)
  | .ok () =>
  match importConfigO with
  | .error e => ([.clusterStatus, .exportConfig, .exportData, .importConfig], .error e)
  | .ok () =>
  match remove_collection removeResp with
  | .error e =>
    ([.clusterStatus, .exportConfig, .exportData, .importConfig, .removeCollection], .error e)
  | .ok () =>
  match createO with
  | .error e =>
    ([.clusterStatus, .exportConfig, .exportData, .importConfig, .removeCollection,
      .createCollection], .error e)
  | .ok () =>
  match importO with
  | .error e =>
    ([.clusterStatus, .exportConfig, .exportData, .importConfig, .removeCollection,
      .createCollection, .importData], .error e)
  | .ok () =>
    ([.clusterStatus, .exportConfig, .exportData, .importConfig, .removeCollection,
      .createCollection, .importData], .ok ())

/-- Python `range(0, stop, step)` for a positive step: the arithmetic
progression `0, step, 2*step, …` strictly below `stop`; it has
`⌈stop/step⌉ = (stop + step - 1) / step` elements. -/
def pyRange (stop step : Nat) : List Nat :=
  List.range' 0 ((stop + step - 1) / step) step

/-- The `(start, rows)` windows issued by the export loop of
`Exporter._export_to_path` (src/solar/api/export.py, lines 100–108): one
`self._get_documents(start_row=from_idx, rows=batch_size, ...)` call per
iteration of `for from_idx in range(0, num_ids, batch_size)`. -/
def export_windows (num_ids batch_size : Nat) : List (Nat × Nat) :=
  (pyRange num_ids batch_size).map (fun s => (s, batch_size))

/-- The document list accumulated into `data["docs"]` by the export loop
(`data["docs"] += docs`), given that the select handler answers the window
request `(start, rows)` with the slice `allDocs[start : start + rows]` of
the result set of the query — the premise of the tiling claim. -/
def export_collected {α : Type} (allDocs : List α) (batch_size : Nat) : List α :=
  (pyRange allDocs.length batch_size).foldl
    (fun acc s => acc ++ ((allDocs.drop s).take batch_size)) []

/-- What `Exporter._export_to_path` leaves on disk: whether it created the
destination directory, the file name it chose, and the single JSON document
it wrote. -/
structure SnapshotFile where
  dirCreated : Bool
  filename : String
  content : Json

/-- `Exporter._export_to_path` (src/solar/api/export.py, lines 86–126):
build `data = dict(collection=…, solr_url=…, date=today_str, docs=[])`,
accumulate every fetched window into `data["docs"]`, create the destination
directory when it does not exist, pick the file name
`f"{self.collection}_{today_str}.json"` unless an explicit `name` was
given, and write `orjson.dumps(data)` to that file.  `today_str` is
`datetime.now().strftime("%d-%m-%Y")`, i.e. the date as `DD-MM-YYYY`. -/
def export_to_path (collection base_url today_str : String) (allDocs : List Json)
    (batch_size : Nat) (name : Option String) (dirExists : Bool) : SnapshotFile :=
  { dirCreated := !dirExists
    filename :=
      match name with
      | none => collection ++ "_" ++ today_str ++ ".json"
      | some n => n
    content := .obj [("collection", .str collection), ("solr_url", .str base_url),
                     ("date", .str today_str),
                     ("docs", .arr (export_collected allDocs batch_size))] }

end Solar

open Solar

/-- Claim C1 (code_bug). The claim states the posted payload contains no
`_version_` at top level and no `_root_` at any nesting depth.  The code pops
`_version_` in place, but assigns the result of
`recursive_field_remove(doc, "_root_")` to the loop variable only, never back
into the posted list: on `sampleDoc` the posted payload still contains
`_root_` both at top level and nested, even though the discarded computation
would have removed every occurrence.  `_version_` alone is removed. -/
theorem C1_root_field_not_stripped :
    post_payload [sampleDoc]
      = [[("id", Json.str "1"), ("_root_", Json.str "1"),
          ("_childDocuments_", Json.arr [Json.obj [("id", Json.str "1.1"), ("_root_", Json.str "1")]])]]
    ∧ obj_has_field (post_payload [sampleDoc]).headI "_root_" = true
    ∧ obj_has_field (post_payload [sampleDoc]).headI "_version_" = false
    ∧ recursive_field_remove (.obj (pop_field sampleDoc "_version_")) "_root_"
        = .obj [("id", Json.str "1"),
                ("_childDocuments_", Json.arr [Json.obj [("id", Json.str "1.1")]])] :=
  ⟨rfl, rfl, rfl, rfl⟩

/-- Claim C6 (code_bug). The id scan does issue one export-mode request sorted
descending by the configured id field (first conjunct), and failures do not
come back as normal results: a non-2xx response yields the `None` sentinel
and an undecodable 200 body raises a decode error (last two conjuncts).  But
the extraction reads the literal key `"id"` from each returned doc instead of
the configured id field: with id field `uid` — where the response docs carry
only `uid`, since the request asked for `fl=uid` — the scan raises `KeyError`
instead of returning the identifiers `["5"]` that reading the configured
field would give (middle conjuncts). -/
theorem C6_fetch_ids_reads_literal_id_key :
    fetch_ids_request "portal" "uid" "*:*"
      = { method := "GET", path := "/solr/portal/export",
          params := [("q", "*:*"), ("fl", "uid"), ("sort", "uid desc")] }
    ∧ fetch_ids { status := 200, body := .json uidScanBody } = .error .keyError
    ∧ [Json.obj [("uid", .str "5")]].mapM (fun i => getKey i "uid") = .ok [Json.str "5"]
    ∧ fetch_ids { status := 500, body := .json uidScanBody } = .ok none
    ∧ fetch_ids { status := 200, body := .invalid } = .error .decodeError :=
  ⟨rfl, rfl, rfl, rfl, rfl⟩

/-- Helper: the bulk-upload loop posts every batch (with its sanitized
payload) and always completes, whatever the responses are — the bare
`except Exception` swallows every error `_post_documents` can raise. -/
theorem upload_loop_eq {V : Type} [DecidableEq V] (respFn : Nat → SolrResponse)
    (batches : List (List (DocF V))) (k : Nat) :
    upload_loop respFn batches k
      = (batches.map (fun b => ImportEffect.updateDocs (post_documents_payload b)), .ok ()) := by
  induction batches generalizing k with
  | nil => rfl
  | cons b rest ih =>
    simp only [upload_loop, ih (k + 1), List.map_cons]
    cases h : api_request (respFn k) <;> simp [h]

/-- Claim C2, counterexample. With every earlier step succeeding, a removal
request answered with HTTP 500 — a failed collection-removal step — does not
stop the sequence: the collection-creation and data-import steps are still
executed and the command even reports overall success, because
`remove_collection` never inspects the response `api_request` hands back. -/
theorem C2_counterexample_removal_failure_not_gating :
    reindex_run (.ok ()) (.ok ()) (.ok ()) (.ok ()) ⟨500, RespBody.invalid⟩ (.ok ()) (.ok ())
      = ([.clusterStatus, .exportConfig, .exportData, .importConfig, .removeCollection,
          .createCollection, .importData], .ok ())
    ∧ ReindexStep.createCollection
        ∈ (reindex_run (.ok ()) (.ok ()) (.ok ()) (.ok ()) ⟨500, RespBody.invalid⟩
            (.ok ()) (.ok ())).1
    ∧ ReindexStep.importData
        ∈ (reindex_run (.ok ()) (.ok ()) (.ok ()) (.ok ()) ⟨500, RespBody.invalid⟩
            (.ok ()) (.ok ())).1 :=
  ⟨rfl, by decide, by decide⟩

/-- Claim C2 (corrected). Steps of the reindex sequence halt it only by
raising: a failing config-import step (a raised error) prevents removal,
creation and import from executing; a 401 on the removal request raises the
auth error and prevents creation and import; but any other failing removal
response is ignored by `remove_collection`, so the creation step still
executes. -/
theorem C2_reindex_gating_amended (removeResp : SolrResponse)
    (createO importO : Except SolarError Unit) (e : SolarError) :
    (removeResp.status = 401 →
      reindex_run (.ok ()) (.ok ()) (.ok ()) (.ok ()) removeResp createO importO
        = ([.clusterStatus, .exportConfig, .exportData, .importConfig, .removeCollection],
           .error .authError))
    ∧ (removeResp.status ≠ 401 →
        ReindexStep.createCollection
          ∈ (reindex_run (.ok ()) (.ok ()) (.ok ()) (.ok ()) removeResp createO importO).1)
    ∧ reindex_run (.ok ()) (.ok ()) (.ok ()) (.error e) removeResp createO importO
        = ([.clusterStatus, .exportConfig, .exportData, .importConfig], .error e) := by
  refine ⟨?_, ?_, rfl⟩
  · intro h
    have hrm : remove_collection removeResp = .error .authError := by
      unfold remove_collection api_request
      rw [if_pos h]
    unfold reindex_run
    rw [hrm]
  · intro h
    have hrm : remove_collection removeResp = .ok () := by
      unfold remove_collection api_request
      rw [if_neg h]
      by_cases h2 : removeResp.status = 200 <;> simp [h2]
    unfold reindex_run
    rw [hrm]
    cases createO <;> cases importO <;> simp

/-- Witness for `C2_reindex_gating_amended`: at a concrete 401 removal
response the sequence halts at the removal step with the auth error. -/
theorem C2_reindex_gating_amended_witness :
    (⟨401, RespBody.invalid⟩ : SolrResponse).status = 401
    ∧ reindex_run (.ok ()) (.ok ()) (.ok ()) (.ok ()) ⟨401, RespBody.invalid⟩ (.ok ()) (.ok ())
        = ([.clusterStatus, .exportConfig, .exportData, .importConfig, .removeCollection],
           .error .authError) :=
  ⟨rfl, (C2_reindex_gating_amended ⟨401, RespBody.invalid⟩ (.ok ()) (.ok ()) .valueError).1 rfl⟩

/-- Claim C4, counterexample. In the bulk import loop a 401 response does
not abort the run: with two one-document batches where the first POST is
answered 401, the bare `except Exception` swallows the raised auth error,
the second batch is still posted, and the run completes normally. -/
theorem C4_counterexample_401_swallowed_in_bulk_loop :
    import_data_run "id" [[("id", "1")], [("id", "2")]] 1 true (.ok none) "y"
        (fun k => if k = 0 then ⟨401, RespBody.invalid⟩ else ⟨200, RespBody.json .null⟩)
      = ([ImportEffect.promptConfirm,
          ImportEffect.updateDocs [[("id", "1")]],
          ImportEffect.updateDocs [[("id", "2")]]], .ok ()) :=
  rfl

/-- Claim C4 (corrected). A 401 response makes `api_request` raise the auth
error, so every operation that does not catch it aborts; but the bulk
document-import loop catches all exceptions, so there the auth error is
swallowed like any other batch failure: every batch is posted and the loop
always completes, whatever the responses. -/
theorem C4_auth_fatal_except_bulk_loop_amended {V : Type} [DecidableEq V] :
    (∀ resp : SolrResponse, resp.status = 401 → api_request resp = .error .authError)
    ∧ ∀ (respFn : Nat → SolrResponse) (batches : List (List (DocF V))) (k : Nat),
        upload_loop respFn batches k
          = (batches.map (fun b => ImportEffect.updateDocs (post_documents_payload b)),
             .ok ()) := by
  constructor
  · intro resp h
    unfold api_request
    rw [if_pos h]
  · exact upload_loop_eq

/-- Witness for `C4_auth_fatal_except_bulk_loop_amended` at a concrete 401
response and a concrete one-batch loop. -/
theorem C4_auth_fatal_except_bulk_loop_amended_witness :
    (⟨401, RespBody.invalid⟩ : SolrResponse).status = 401
    ∧ api_request ⟨401, RespBody.invalid⟩ = .error .authError
    ∧ upload_loop (fun _ => ⟨401, RespBody.invalid⟩) [[[("id", "1")]]] 0
        = ([ImportEffect.updateDocs [[("id", "1")]]], .ok ()) :=
  ⟨rfl,
   (C4_auth_fatal_except_bulk_loop_amended (V := String)).1 ⟨401, RespBody.invalid⟩ rfl,
   ((C4_auth_fatal_except_bulk_loop_amended (V := String)).2
      (fun _ => ⟨401, RespBody.invalid⟩) [[[("id", "1")]]] 0).trans rfl⟩

/-- Claim C5 (confirmed). A non-auth failure of batch `k` — a response that
is neither 200 nor 401, which `_post_documents` surfaces without raising and
the loop handler would swallow even if it raised — does not prevent any
later batch from being posted and does not abort the run: the loop posts
every batch and completes. -/
theorem C5_batch_failure_continues {V : Type} [DecidableEq V]
    (respFn : Nat → SolrResponse) (batches : List (List (DocF V))) (k : Nat)
    (hfail : (respFn k).status ≠ 200 ∧ (respFn k).status ≠ 401) :
    upload_loop respFn batches 0
      = (batches.map (fun b => ImportEffect.updateDocs (post_documents_payload b)),
         .ok ()) :=
  upload_loop_eq respFn batches 0

/-- Witness for `C5_batch_failure_continues`: the POST of batch 0 is answered
500, batch 1 is still posted and the run completes. -/
theorem C5_batch_failure_continues_witness :
    ((fun k => if k = 0 then (⟨500, RespBody.invalid⟩ : SolrResponse)
               else ⟨200, RespBody.json .null⟩) 0).status ≠ 200
    ∧ upload_loop (fun k => if k = 0 then (⟨500, RespBody.invalid⟩ : SolrResponse)
                            else ⟨200, RespBody.json .null⟩)
        [[[("id", "1")]], [[("id", "2")]]] 0
        = ([ImportEffect.updateDocs [[("id", "1")]],
            ImportEffect.updateDocs [[("id", "2")]]], .ok ()) :=
  ⟨by decide,
   (C5_batch_failure_continues
      (fun k => if k = 0 then ⟨500, RespBody.invalid⟩ else ⟨200, RespBody.json .null⟩)
      [[[("id", "1")]], [[("id", "2")]]] 0 (by constructor <;> decide)).trans rfl⟩

/-- Claim C9 (confirmed). Any operator answer whose lowercasing is not
exactly "y" makes both confirmation-gated operations clean no-ops: the
config import returns at once having issued only the prompt (no deletion, no
upload), and document import likewise issues no update request — its
observable actions contain nothing but the prompt, and when the prompt was
reached at all the call returns successfully having done nothing else. -/
theorem C9_decline_is_clean_noop {V : Type} [DecidableEq V] (idc : String)
    (docs : List (DocF V)) (B : Nat) (ow : Bool)
    (fetchR : Except SolarError (Option (List V))) (answer : String)
    (respFn : Nat → SolrResponse) (name : String) (dResp uResp : SolrResponse)
    (h : str_lower answer ≠ "y") :
    import_configs_run name ow answer dResp uResp = ([ConfigEffect.promptConfirm], .ok ())
    ∧ (∀ e ∈ (import_data_run idc docs B ow fetchR answer respFn).1,
        e = ImportEffect.promptConfirm)
    ∧ (ImportEffect.promptConfirm ∈ (import_data_run idc docs B ow fetchR answer respFn).1 →
        import_data_run idc docs B ow fetchR answer respFn
          = ([ImportEffect.promptConfirm], .ok ())) := by
  have key : (∃ e, import_data_run idc docs B ow fetchR answer respFn = ([], .error e))
      ∨ import_data_run idc docs B ow fetchR answer respFn = ([], .ok ())
      ∨ import_data_run idc docs B ow fetchR answer respFn
          = ([ImportEffect.promptConfirm], .ok ()) := by
    unfold import_data_run
    cases compute_upload_docs idc docs ow fetchR with
    | error e => exact .inl ⟨e, rfl⟩
    | ok ud =>
      by_cases hl : ud.length = 0
      · exact .inr (.inl (by simp [hl]))
      · exact .inr (.inr (by simp [hl, h]))
  refine ⟨by simp [import_configs_run, h], ?_, ?_⟩
  · rcases key with ⟨e, hk⟩ | hk | hk <;> rw [hk] <;> simp
  · intro hmem
    rcases key with ⟨e, hk⟩ | hk | hk <;> rw [hk] at hmem ⊢ <;> simp_all

/-- Witness for `C9_decline_is_clean_noop` at the concrete answer "N". -/
theorem C9_decline_is_clean_noop_witness :
    str_lower "N" ≠ "y"
    ∧ (import_configs_run "conf" true "N" ⟨200, RespBody.invalid⟩ ⟨200, RespBody.invalid⟩
         = ([ConfigEffect.promptConfirm], .ok ())
       ∧ (∀ e ∈ (import_data_run "id" [[("id", "1")]] 50 true (.ok none) "N"
                   (fun _ => ⟨200, RespBody.invalid⟩)).1,
           e = ImportEffect.promptConfirm)
       ∧ (ImportEffect.promptConfirm
            ∈ (import_data_run "id" [[("id", "1")]] 50 true (.ok none) "N"
                 (fun _ => ⟨200, RespBody.invalid⟩)).1 →
           import_data_run "id" [[("id", "1")]] 50 true (.ok none) "N"
               (fun _ => ⟨200, RespBody.invalid⟩)
             = ([ImportEffect.promptConfirm], .ok ()))) :=
  ⟨by decide,
   C9_decline_is_clean_noop "id" [[("id", "1")]] 50 true (.ok none) "N"
     (fun _ => ⟨200, RespBody.invalid⟩) "conf" ⟨200, RespBody.invalid⟩
     ⟨200, RespBody.invalid⟩ (by decide)⟩

/-- Claim C10 (confirmed). When the computed upload set is empty — no
snapshot documents at all, or, in non-overwrite mode, every snapshot id
already present — `import_data` returns immediately: no confirmation prompt
is shown and no update request is issued. -/
theorem C10_empty_upload_set_returns_early {V : Type} [DecidableEq V] (idc : String)
    (docs : List (DocF V)) (B : Nat) (ow : Bool)
    (fetchR : Except SolarError (Option (List V))) (answer : String)
    (respFn : Nat → SolrResponse)
    (h : compute_upload_docs idc docs ow fetchR = .ok []) :
    import_data_run idc docs B ow fetchR answer respFn = ([], .ok ()) := by
  unfold import_data_run
  rw [h]
  simp

/-- Witness for `C10_empty_upload_set_returns_early`: the one snapshot
document id is already among the existing ids, so the non-overwrite import
does nothing — no prompt, no POST — even with an affirmative answer ready. -/
theorem C10_empty_upload_set_returns_early_witness :
    compute_upload_docs "id" [[("id", "1")]] false (.ok (some ["1"])) = .ok []
    ∧ import_data_run "id" [[("id", "1")]] 50 false (.ok (some ["1"])) "y"
        (fun _ => ⟨200, RespBody.invalid⟩) = ([], .ok ()) :=
  ⟨rfl,
   C10_empty_upload_set_returns_early "id" [[("id", "1")]] 50 false (.ok (some ["1"])) "y"
     (fun _ => ⟨200, RespBody.invalid⟩) rfl⟩

/-- Helper: `getField` succeeds exactly on a present key. -/
theorem getField_ok_iff {V : Type} [DecidableEq V] (d : DocF V) (k : String) (v : V) :
    getField d k = .ok v ↔ List.lookup k d = some v := by
  unfold getField
  cases h : List.lookup k d <;> simp

/-- Helper: when the id comprehension succeeds, its result lists exactly the
ids occurring in the documents. -/
theorem map_id_col_mem {V : Type} [DecidableEq V] (idc : String)
    (docs : List (DocF V)) (l : List V) (h : map_id_col idc docs = .ok l) :
    ∀ j, j ∈ l ↔ ∃ d ∈ docs, List.lookup idc d = some j := by
  induction docs generalizing l with
  | nil =>
    simp only [map_id_col] at h
    cases h
    simp
  | cons d rest ih =>
    simp only [map_id_col, Bind.bind, Except.bind] at h
    cases hd : getField d idc with
    | error e => rw [hd] at h; cases h
    | ok i =>
      rw [hd] at h
      cases hr : map_id_col idc rest with
      | error e => rw [hr] at h; cases h
      | ok l' =>
        rw [hr] at h
        simp only [pure, Except.pure, Except.ok.injEq] at h
        subst h
        have hgd : List.lookup idc d = some i := (getField_ok_iff d idc i).mp hd
        intro j
        simp only [List.mem_cons, ih l' hr j]
        constructor
        · rintro (rfl | ⟨d', hd', hj⟩)
          · exact ⟨d, by simp, hgd⟩
          · exact ⟨d', by simp [hd'], hj⟩
        · rintro ⟨d', hd', hj⟩
          rcases hd' with rfl | hd''
          · left; rw [hgd] at hj; exact (Option.some_inj.mp hj).symm
          · right; exact ⟨d', hd'', hj⟩

/-- Helper: full characterization of the first-occurrence selection loop,
generalized over the already-seen set.  When it succeeds it returns, in
snapshot order, the first occurrence of each document whose id is in
`upl` and not yet seen. -/
theorem select_upload_docs_spec {V : Type} [DecidableEq V] (idc : String) (upl : List V)
    (docs : List (DocF V)) :
    ∀ (seen : List V) (out : List (DocF V)),
    select_upload_docs idc upl docs seen = .ok out →
    out.Sublist docs
    ∧ (∀ j, (∃ d ∈ out, List.lookup idc d = some j)
          ↔ (∃ d ∈ docs, List.lookup idc d = some j) ∧ j ∉ seen ∧ j ∈ upl)
    ∧ (out.map (fun d => List.lookup idc d)).Nodup
    ∧ (∀ d ∈ out, docs.find? (fun x => decide (List.lookup idc x = List.lookup idc d)) = some d)
    ∧ (∀ d ∈ out, ∃ j, List.lookup idc d = some j ∧ j ∉ seen ∧ j ∈ upl) := by
  induction docs with
  | nil =>
    intro seen out h
    simp only [select_upload_docs] at h
    cases h
    simp
  | cons doc rest ih =>
    intro seen out h
    cases hid : getField doc idc with
    | error e =>
      simp only [select_upload_docs, hid, Bind.bind, Except.bind] at h
      exact Except.noConfusion h
    | ok i =>
      simp only [select_upload_docs, hid, Bind.bind, Except.bind] at h
      have hlook : List.lookup idc doc = some i := (getField_ok_iff doc idc i).mp hid
      by_cases hP : i ∉ seen ∧ i ∈ upl
      · rw [if_pos hP] at h
        cases hrec : select_upload_docs idc upl rest (i :: seen) with
        | error e => rw [hrec] at h; cases h
        | ok out' =>
          rw [hrec] at h
          simp only [pure, Except.pure, Except.ok.injEq] at h
          subst h
          obtain ⟨ha, hb, hc, hd, h5⟩ := ih (i :: seen) out' hrec
          refine ⟨ha.cons₂ doc, ?_, ?_, ?_, ?_⟩
          · intro j
            constructor
            · rintro ⟨d, hdm, hlj⟩
              rcases List.mem_cons.mp hdm with heq | hdm'
              · rw [heq, hlook] at hlj
                cases Option.some_inj.mp hlj
                exact ⟨⟨doc, by simp, hlook⟩, hP.1, hP.2⟩
              · obtain ⟨⟨d', hd', hl'⟩, hns, hupl⟩ := (hb j).mp ⟨d, hdm', hlj⟩
                refine ⟨⟨d', by simp [hd'], hl'⟩, ?_, hupl⟩
                intro hjs
                exact hns (by simp [hjs])
            · rintro ⟨⟨d, hdm, hlj⟩, hns, hupl⟩
              by_cases hji : j = i
              · subst hji
                exact ⟨doc, by simp, hlook⟩
              · have hdm' : d ∈ rest := by
                  rcases List.mem_cons.mp hdm with rfl | hdm'
                  · rw [hlook] at hlj
                    exact absurd (Option.some_inj.mp hlj).symm hji
                  · exact hdm'
                have hns' : j ∉ i :: seen := by
                  intro hmem
                  rcases List.mem_cons.mp hmem with rfl | hmem'
                  · exact hji rfl
                  · exact hns hmem'
                obtain ⟨d'', hd'', hl''⟩ := (hb j).mpr ⟨⟨d, hdm', hlj⟩, hns', hupl⟩
                exact ⟨d'', by simp [hd''], hl''⟩
          · rw [List.map_cons, List.nodup_cons]
            constructor
            · intro hmem
              obtain ⟨d, hdm, hlj⟩ := List.mem_map.mp hmem
              have : (∃ d ∈ out', List.lookup idc d = some i) := ⟨d, hdm, by rw [hlj, hlook]⟩
              obtain ⟨_, hns, _⟩ := (hb i).mp this
              exact hns (by simp)
            · exact hc
          · intro d hdm
            rcases List.mem_cons.mp hdm with rfl | hdm'
            · rw [List.find?_cons_of_pos _ (by simp)]
            · obtain ⟨j, hlj, hns, hupl⟩ := h5 d hdm'
              have hji : j ≠ i := fun hji => hns (by simp [hji])
              rw [List.find?_cons_of_neg _ (by simp [hlook, hlj]; exact fun hc => hji hc.symm)]
              exact hd d hdm'
          · intro d hdm
            rcases List.mem_cons.mp hdm with rfl | hdm'
            · exact ⟨i, hlook, hP.1, hP.2⟩
            · obtain ⟨j, hlj, hns, hupl⟩ := h5 d hdm'
              exact ⟨j, hlj, fun hjs => hns (by simp [hjs]), hupl⟩
      · rw [if_neg hP] at h
        obtain ⟨ha, hb, hc, hd, h5⟩ := ih seen out h
        have hkey : ∀ j, List.lookup idc doc = some j → j ∉ seen → j ∈ upl → False := by
          intro j hlj hns hupl
          rw [hlook] at hlj
          cases Option.some_inj.mp hlj
          exact hP ⟨hns, hupl⟩
        refine ⟨ha.cons doc, ?_, hc, ?_, h5⟩
        · intro j
          rw [hb j]
          constructor
          · rintro ⟨⟨d, hdm, hlj⟩, hns, hupl⟩
            exact ⟨⟨d, by simp [hdm], hlj⟩, hns, hupl⟩
          · rintro ⟨⟨d, hdm, hlj⟩, hns, hupl⟩
            rcases List.mem_cons.mp hdm with rfl | hdm'
            · exact (hkey j hlj hns hupl).elim
            · exact ⟨⟨d, hdm', hlj⟩, hns, hupl⟩
        · intro d hdm
          obtain ⟨j, hlj, hns, hupl⟩ := h5 d hdm
          have hji : j ≠ i := by
            intro hji
            subst hji
            exact hP ⟨hns, hupl⟩
          rw [List.find?_cons_of_neg _ (by simp [hlook, hlj]; exact fun hc => hji hc.symm)]
          exact hd d hdm

/-- Claim C3 (confirmed). In non-overwrite import the diff step selects
exactly the documents whose ids are in the snapshot id set minus the
existing id set (second conjunct), keeps only the first occurrence of each
id — the selected ids are pairwise distinct and every selected document is
the first document of the snapshot bearing its id (third and fourth
conjuncts) — and preserves the snapshot order (first conjunct: the result
is a sublist of the snapshot). -/
theorem C3_diff_selects_missing_first_occurrences {V : Type} [DecidableEq V]
    (idc : String) (docs : List (DocF V)) (existing : List V) (out : List (DocF V))
    (h : compute_upload_docs idc docs false (.ok (some existing)) = .ok out) :
    out.Sublist docs
    ∧ (∀ j, (∃ d ∈ out, List.lookup idc d = some j)
          ↔ (∃ d ∈ docs, List.lookup idc d = some j) ∧ j ∉ existing)
    ∧ (out.map (fun d => List.lookup idc d)).Nodup
    ∧ ∀ d ∈ out, docs.find? (fun x => decide (List.lookup idc x = List.lookup idc d)) = some d := by
  unfold compute_upload_docs at h
  simp only [Bind.bind, Except.bind] at h
  cases hmap : map_id_col idc docs with
  | error e => rw [hmap] at h; cases h
  | ok docs_ids =>
    rw [hmap] at h
    simp only [Bool.not_false, if_pos trivial, reduceIte] at h
    have hsel : select_upload_docs idc (docs_ids.filter (fun i => i ∉ existing)) docs []
        = .ok out := h
    obtain ⟨ha, hb, hc, hd, _⟩ :=
      select_upload_docs_spec idc (docs_ids.filter (fun i => i ∉ existing)) docs [] out hsel
    have hmem := map_id_col_mem idc docs docs_ids hmap
    refine ⟨ha, ?_, hc, hd⟩
    intro j
    rw [hb j]
    constructor
    · rintro ⟨hA, _, hupl⟩
      rw [List.mem_filter] at hupl
      exact ⟨hA, by simpa using hupl.2⟩
    · rintro ⟨hA, hex⟩
      refine ⟨hA, by simp, ?_⟩
      rw [List.mem_filter]
      exact ⟨(hmem j).mpr hA, by simpa⟩

/-- Witness for `C3_diff_selects_missing_first_occurrences`: a snapshot with
ids 1, 2, 1, 3 (a duplicated 1) against existing id 3 selects exactly the
first document with id 1 and the document with id 2, in snapshot order. -/
theorem C3_diff_selects_missing_first_occurrences_witness :
    compute_upload_docs "id" [[("id", "1")], [("id", "2")], [("id", "1")], [("id", "3")]]
        false (.ok (some ["3"]))
      = .ok [[("id", "1")], [("id", "2")]]
    ∧ ([[("id", "1")], [("id", "2")]] : List (DocF String)).Sublist
        [[("id", "1")], [("id", "2")], [("id", "1")], [("id", "3")]]
    ∧ (∀ j, (∃ d ∈ ([[("id", "1")], [("id", "2")]] : List (DocF String)),
               List.lookup "id" d = some j)
          ↔ (∃ d ∈ ([[("id", "1")], [("id", "2")], [("id", "1")], [("id", "3")]] :
                List (DocF String)), List.lookup "id" d = some j) ∧ j ∉ ["3"])
    ∧ (([[("id", "1")], [("id", "2")]] : List (DocF String)).map
        (fun d => List.lookup "id" d)).Nodup
    ∧ ∀ d ∈ ([[("id", "1")], [("id", "2")]] : List (DocF String)),
        List.find? (fun x => decide (List.lookup "id" x = List.lookup "id" d))
          [[("id", "1")], [("id", "2")], [("id", "1")], [("id", "3")]] = some d :=
  have h := C3_diff_selects_missing_first_occurrences "id"
    [[("id", "1")], [("id", "2")], [("id", "1")], [("id", "3")]] ["3"]
    [[("id", "1")], [("id", "2")]] rfl
  ⟨rfl, h.1, h.2.1, h.2.2.1, h.2.2.2⟩

/-- Helper: folding the export windows in order concatenates the first
`n * B` elements of the result set. -/
theorem windows_foldl_take {α : Type} (B : Nat) (l : List α) :
    ∀ n, (List.range' 0 n B).foldl (fun acc s => acc ++ ((l.drop s).take B)) []
      = l.take (n * B) := by
  intro n
  induction n with
  | zero => simp
  | succ n ih =>
    rw [List.range'_concat, List.foldl_append, ih, List.foldl_cons, List.foldl_nil,
      Nat.zero_add, Nat.mul_comm B n, Nat.succ_mul, List.take_add]

/-- Helper: with a positive batch size, the accumulated export-loop
document list is the entire result set. -/
theorem export_collected_eq {α : Type} (l : List α) (B : Nat) (hB : 0 < B) :
    export_collected l B = l := by
  unfold export_collected pyRange
  rw [windows_foldl_take]
  apply List.take_of_length_le
  rw [Nat.mul_comm]
  have h1 := Nat.div_add_mod (l.length + B - 1) B
  have h2 := Nat.mod_lt (l.length + B - 1) hB
  omega

/-- Helper: for a nonempty result set the window starts are
`0, B, …, ⌊(N-1)/B⌋ * B`. -/
theorem pyRange_eq_range' (N B : Nat) (hB : 0 < B) (hN : 0 < N) :
    pyRange N B = List.range' 0 ((N - 1) / B + 1) B := by
  unfold pyRange
  have h : N + B - 1 = (N - 1) + B := by omega
  rw [h, Nat.add_div_right _ hB]

/-- Helper: every index below `N` lies in exactly one window of the scan. -/
theorem pyRange_unique_window (N B i : Nat) (hB : 0 < B) (hi : i < N) :
    ∃! s, s ∈ pyRange N B ∧ s ≤ i ∧ i < s + B := by
  have hN : 0 < N := Nat.pos_of_ne_zero (by omega)
  have hdm := Nat.div_add_mod i B
  have hml := Nat.mod_lt i hB
  refine ⟨B * (i / B), ⟨?_, by omega, by omega⟩, ?_⟩
  · rw [pyRange_eq_range', List.mem_range'] <;> try assumption
    refine ⟨i / B, ?_, by rw [Nat.zero_add]⟩
    have h1 : i / B ≤ (N - 1) / B := Nat.div_le_div_right (by omega)
    omega
  · rintro s' ⟨hmem, hle, hlt⟩
    rw [pyRange_eq_range' N B hB hN, List.mem_range'] at hmem
    obtain ⟨k, _, rfl⟩ := hmem
    rw [Nat.zero_add] at hle hlt ⊢
    have hk : k = i / B := by
      refine (Nat.div_eq_of_lt_le ?_ ?_).symm
      · rw [Nat.mul_comm]; exact hle
      · rw [Nat.succ_mul, Nat.mul_comm]; omega
    rw [hk]

/-- Claim C7 (confirmed). For a result set of `N = allDocs.length` documents
and a positive batch size `B`, the export loop issues exactly the windows
`(0,B), (B,B), …, (⌊(N-1)/B⌋*B, B)` (first conjunct); these windows tile the
`N`-element id space — every index below `N` lies in exactly one window
(second conjunct); and the accumulated snapshot document list is exactly
`allDocs`, each document once, in scan order (third conjunct).  At `N = 5`,
`B = 2` the first conjunct yields the three windows `(0,2), (2,2), (4,2)`. -/
theorem C7_export_windows_tile {α : Type} (allDocs : List α) (B : Nat)
    (hB : 0 < B) (hN : 0 < allDocs.length) :
    export_windows allDocs.length B
      = (List.range' 0 ((allDocs.length - 1) / B + 1) B).map (fun s => (s, B))
    ∧ (∀ i < allDocs.length,
        ∃! w : Nat × Nat,
          w ∈ export_windows allDocs.length B ∧ w.1 ≤ i ∧ i < w.1 + w.2)
    ∧ export_collected allDocs B = allDocs := by
  refine ⟨?_, ?_, export_collected_eq allDocs B hB⟩
  · unfold export_windows
    rw [pyRange_eq_range' _ _ hB hN]
  · intro i hi
    obtain ⟨s₀, ⟨hmem, hle, hlt⟩, huniq⟩ := pyRange_unique_window allDocs.length B i hB hi
    refine ⟨(s₀, B), ⟨List.mem_map.mpr ⟨s₀, hmem, rfl⟩, hle, hlt⟩, ?_⟩
    rintro ⟨a, b⟩ ⟨hwmem, hwle, hwlt⟩
    obtain ⟨s', hs', heq⟩ := List.mem_map.mp hwmem
    injection heq with h1 h2
    subst h1
    subst h2
    have hss : s' = s₀ := huniq s' ⟨hs', hwle, hwlt⟩
    rw [hss]

/-- Witness for `C7_export_windows_tile`: five documents with batch size 2
give exactly the windows `(0,2), (2,2), (4,2)` and the snapshot lists all
five documents once, in order. -/
theorem C7_export_windows_tile_witness :
    0 < 2 ∧ 0 < (["a", "b", "c", "d", "e"] : List String).length
    ∧ export_windows (["a", "b", "c", "d", "e"] : List String).length 2
        = [(0, 2), (2, 2), (4, 2)]
    ∧ export_collected (["a", "b", "c", "d", "e"] : List String) 2
        = ["a", "b", "c", "d", "e"]
    ∧ ∀ i < (["a", "b", "c", "d", "e"] : List String).length,
        ∃! w : Nat × Nat,
          w ∈ export_windows (["a", "b", "c", "d", "e"] : List String).length 2
            ∧ w.1 ≤ i ∧ i < w.1 + w.2 :=
  have h := C7_export_windows_tile ["a", "b", "c", "d", "e"] 2 (by decide) (by decide)
  ⟨by decide, by decide, h.1.trans rfl, h.2.2, h.2.1⟩

/-- Claim C8 (confirmed). Snapshot export creates the destination directory
exactly when it is absent, names the file `{collection}_{today}.json` —
`today` being the `DD-MM-YYYY` date string — unless an explicit name is
supplied, in which case that name is used, and writes one JSON document
holding the collection name, source URL, date, and (by the tiling property)
all the documents. -/
theorem C8_export_snapshot_file (collection base_url today_str : String)
    (allDocs : List Json) (B : Nat) (n : String) (dirExists : Bool) (hB : 0 < B) :
    (export_to_path collection base_url today_str allDocs B none dirExists).filename
        = collection ++ "_" ++ today_str ++ ".json"
    ∧ (export_to_path collection base_url today_str allDocs B (some n) dirExists).filename
        = n
    ∧ (export_to_path collection base_url today_str allDocs B none dirExists).dirCreated
        = !dirExists
    ∧ (export_to_path collection base_url today_str allDocs B none dirExists).content
        = .obj [("collection", .str collection), ("solr_url", .str base_url),
                ("date", .str today_str), ("docs", .arr allDocs)] := by
  refine ⟨rfl, rfl, rfl, ?_⟩
  unfold export_to_path
  rw [export_collected_eq allDocs B hB]

/-- Witness for `C8_export_snapshot_file` at a concrete export call. -/
theorem C8_export_snapshot_file_witness :
    0 < 50
    ∧ ((export_to_path "portal" "http://solr:8983" "02-03-2023"
          [Json.obj [("id", Json.str "1")]] 50 none false).filename
        = "portal_02-03-2023.json"
       ∧ (export_to_path "portal" "http://solr:8983" "02-03-2023"
            [Json.obj [("id", Json.str "1")]] 50 (some "x.json") false).filename
          = "x.json"
       ∧ (export_to_path "portal" "http://solr:8983" "02-03-2023"
            [Json.obj [("id", Json.str "1")]] 50 none false).dirCreated = !false
       ∧ (export_to_path "portal" "http://solr:8983" "02-03-2023"
            [Json.obj [("id", Json.str "1")]] 50 none false).content
          = .obj [("collection", .str "portal"), ("solr_url", .str "http://solr:8983"),
                  ("date", .str "02-03-2023"),
                  ("docs", .arr [Json.obj [("id", Json.str "1")]])]) :=
  have h := C8_export_snapshot_file "portal" "http://solr:8983" "02-03-2023"
    [Json.obj [("id", Json.str "1")]] 50 "x.json" false (by decide)
  ⟨by decide, h.1.trans rfl, h.2.1, h.2.2.1, h.2.2.2⟩
